import Mathlib

/-!
# ThemeKeeper — verification of the state-reconciliation core

Shallow embedding of `extension.js` of the ThemeKeeper GNOME extension.
Stores are modelled as functions from key strings to values; the dconf
store under the extension's path maps keys to `Option String` (a key may
be unset), while the GSettings domains (background, interface) are total
(GSettings always yields a string, falling back to the schema default).
Each handler is a state transformer that additionally returns the ordered
list of externally visible effects (live-setting writes, persisted-store
writes, and the awaited shell-theme command, which is the handler's
suspension point).
-/

namespace ThemeKeeper

/-- `List.isPrefixOf`-style check written out: `listHasPrefixOf l p` is true
iff `p` is a prefix of `l`. -/
def listHasPrefixOf : List Char → List Char → Bool
  | _, [] => true
  | [], _ :: _ => false
  | c :: cs, p :: ps => c == p && listHasPrefixOf cs ps

/-- `containsSub l pat` is true iff `pat` occurs as a contiguous substring
of `l` (JS `String.prototype.includes`). -/
def containsSub : List Char → List Char → Bool
  | [], pat => pat.isEmpty
  | c :: cs, pat => listHasPrefixOf (c :: cs) pat || containsSub cs pat

/-- JS `String.prototype.replace` with a plain-string pattern: remove the
first occurrence of `pat` (replacement is the empty string, as in
`uri.replace('file://', '')`). If `pat` does not occur, the list is
returned unchanged. -/
def replaceFirst : List Char → List Char → List Char
  | [], _ => []
  | c :: cs, pat =>
      if listHasPrefixOf (c :: cs) pat then (c :: cs).drop pat.length
      else c :: replaceFirst cs pat

/-- JS `String.prototype.split('/')`: split at every `'/'`, keeping empty
segments; never returns the empty list. -/
def splitSlash : List Char → List (List Char)
  | [] => [[]]
  | c :: cs =>
      let r := splitSlash cs
      if c == '/' then [] :: r
      else
        match r with
        | [] => [[c]]
        | seg :: rest => (c :: seg) :: rest

/-- JS `split('/').pop() || ''`: the final path segment. -/
def lastSegment (l : List Char) : List Char :=
  (splitSlash l).getLastD []

/-- One candidate match position for the regex `-x\.[a-zA-Z0-9]+$`
(with `x` the variant character): at position `i` the characters
`['-', x, '.']` occur, followed by a non-empty all-alphanumeric run that
extends to the end of the string. -/
def variantMatchAt (x : Char) (l : List Char) (i : Nat) : Bool :=
  let suf := l.drop i
  suf.take 3 == ['-', x, '.'] && !(suf.drop 3).isEmpty && (suf.drop 3).all Char.isAlphanum

/-- The whole regex test: some position of `l` starts a match of
`-x\.[a-zA-Z0-9]+` that reaches the end of the string. -/
def regexVariantTest (x : Char) (l : List Char) : Bool :=
  (List.range l.length).any (variantMatchAt x l)

/-- Externally visible effects of a reconciliation handler, in program
order.  `setBackground`/`setInterface` are live GSettings writes;
`tkWrite` is a synchronous `dconf write` under the extension's own path;
`shellWrite`/`shellReset` are the awaited external `dconf` commands on the
user-theme key (the only suspension points). -/
inductive Effect where
  | setBackground (key val : String)
  | setInterface (key val : String)
  | tkWrite (key val : String)
  | shellWrite (val : String)
  | shellReset
deriving DecidableEq, Repr

/-- Is this effect one of the awaited external commands (a suspension
point of the enclosing async handler)? -/
def isSuspend : Effect → Bool
  | .shellWrite _ => true
  | .shellReset => true
  | _ => false

/-- Is this effect a live-setting write (background or interface domain)? -/
def isLiveWrite : Effect → Bool
  | .setBackground _ _ => true
  | .setInterface _ _ => true
  | _ => false

/-- Is this effect a write to the extension's persisted dconf path? -/
def isTkWrite : Effect → Bool
  | .tkWrite _ _ => true
  | _ => false

/-- The mutable world as the extension sees it:
`backgroundSettings` is `org.gnome.desktop.background` (keys
`picture-uri`, `picture-uri-dark`), `interfaceSettings` is
`org.gnome.desktop.interface` (keys `gtk-theme`, `icon-theme`,
`cursor-theme`, `accent-color`, `color-scheme`), `tkStore` the dconf tree
under `/org/gnome/shell/extensions/themekeeper/`, `userThemeName` the
dconf key `/org/gnome/shell/extensions/user-theme/name`, and
`storedLight`/`storedDark` the in-process `_storedWallpapers` slots. -/
structure AgentState where
  backgroundSettings : String → String
  interfaceSettings : String → String
  tkStore : String → Option String
  userThemeName : Option String
  storedLight : Option String
  storedDark : Option String

/-- Point update of a total string store (GSettings `set_string`). -/
def setKey (f : String → String) (k v : String) : String → String :=
  fun x => if x = k then v else f x

/-- Point update of the dconf store (`dconf write`). -/
def setKeyO (f : String → Option String) (k v : String) : String → Option String :=
  fun x => if x = k then some v else f x

/-- JS truthiness of a string-or-null value: null and the empty string are
falsy, every other string is truthy. -/
def truthy : Option String → Bool
  | none => false
  | some s => !(s == "")

/-- `_getDconfString(key)` with the default `null`: `dconf read` of an
unset key prints nothing (so the default is returned); a set key prints
the quoted value, whose quotes the adapter strips. -/
def getDconfString (s : AgentState) (key : String) : Option String :=
  s.tkStore key

/-- `_getDconfBoolean(key, null)`: unset key gives the default `null`;
otherwise the printed value is compared with the literal `'true'`. -/
def getDconfBoolean (s : AgentState) (key : String) : Option Bool :=
  match s.tkStore key with
  | none => none
  | some v => some (v == "true")

/-- `_getCurrentShellTheme()`: `dconf read` of the user-theme name key;
unset or failing read yields `''`, otherwise the unquoted value. -/
def getCurrentShellTheme (s : AgentState) : String :=
  s.userThemeName.getD ""

/-- `colorScheme.includes('dark')`. -/
def isDarkScheme (scheme : String) : Bool :=
  containsSub scheme.toList "dark".toList

/-- `_isPairedWallpaper(uri)`: false for null/empty; otherwise remove the
first occurrence of `file://`, take the final `/`-separated segment of
the result, and test it against `-l.<ext>` / `-d.<ext>`. -/
def isPairedWallpaper : Option String → Bool
  | none => false
  | some uri =>
      if uri = "" then false
      else
        let filename := lastSegment (replaceFirst uri.toList "file://".toList)
        regexVariantTest 'l' filename || regexVariantTest 'd' filename

/-- `_getAutomaticMode()`: read `automatic-mode`; when unset, persist
`true` and return `true`; otherwise return the stored boolean.  Returns
the value, the (possibly updated) state, and the emitted effects. -/
def getAutomaticMode (s : AgentState) : Bool × AgentState × List Effect :=
  match getDconfBoolean s "automatic-mode" with
  | none =>
      (true,
       { s with tkStore := setKeyO s.tkStore "automatic-mode" "true" },
       [Effect.tkWrite "automatic-mode" "true"])
  | some b => (b, s, [])

/-- `_saveCurrentThemeToLightKeys()`: write the five currently live theme
attributes under the light-mode keys; the shell theme falls back to the
sentinel `'Default'` when the live read is empty (`currentShell || 'Default'`). -/
def saveCurrentThemeToLightKeys (s : AgentState) : AgentState × List Effect :=
  let g := s.interfaceSettings "gtk-theme"
  let i := s.interfaceSettings "icon-theme"
  let c := s.interfaceSettings "cursor-theme"
  let a := s.interfaceSettings "accent-color"
  let sh := getCurrentShellTheme s
  let shv := if sh = "" then "Default" else sh
  let tk := setKeyO (setKeyO (setKeyO (setKeyO (setKeyO s.tkStore
      "light-gtk-theme" g) "light-icon-theme" i) "light-cursor-theme" c)
      "light-accent-color" a) "light-shell-theme" shv
  ({ s with tkStore := tk },
   [Effect.tkWrite "light-gtk-theme" g, Effect.tkWrite "light-icon-theme" i,
    Effect.tkWrite "light-cursor-theme" c, Effect.tkWrite "light-accent-color" a,
    Effect.tkWrite "light-shell-theme" shv])

/-- `_saveCurrentThemeToDarkKeys()`: as above, under the dark-mode keys. -/
def saveCurrentThemeToDarkKeys (s : AgentState) : AgentState × List Effect :=
  let g := s.interfaceSettings "gtk-theme"
  let i := s.interfaceSettings "icon-theme"
  let c := s.interfaceSettings "cursor-theme"
  let a := s.interfaceSettings "accent-color"
  let sh := getCurrentShellTheme s
  let shv := if sh = "" then "Default" else sh
  let tk := setKeyO (setKeyO (setKeyO (setKeyO (setKeyO s.tkStore
      "dark-gtk-theme" g) "dark-icon-theme" i) "dark-cursor-theme" c)
      "dark-accent-color" a) "dark-shell-theme" shv
  ({ s with tkStore := tk },
   [Effect.tkWrite "dark-gtk-theme" g, Effect.tkWrite "dark-icon-theme" i,
    Effect.tkWrite "dark-cursor-theme" c, Effect.tkWrite "dark-accent-color" a,
    Effect.tkWrite "dark-shell-theme" shv])

/-- One guarded live interface write of the appliers:
`if (v) this._interfaceSettings.set_string(liveKey, v)`. -/
def optSetInterface (s : AgentState) (liveKey : String) (v : Option String) :
    AgentState × List Effect :=
  if truthy v then
    ({ s with interfaceSettings := setKey s.interfaceSettings liveKey (v.getD "") },
     [Effect.setInterface liveKey (v.getD "")])
  else (s, [])

/-- The shell-theme step of the appliers: a stored value that is truthy
and not the sentinel `'Default'` is written to the user-theme key via an
awaited external command; otherwise the key is reset. -/
def applyShell (s : AgentState) (v : Option String) : AgentState × List Effect :=
  match v with
  | some t =>
      if t = "" ∨ t = "Default" then
        ({ s with userThemeName := none }, [Effect.shellReset])
      else
        ({ s with userThemeName := some t }, [Effect.shellWrite t])
  | none => ({ s with userThemeName := none }, [Effect.shellReset])

/-- `_applyLightTheme()`: read the five stored light attributes, then in
program order write gtk, run the awaited shell command, and write icon,
cursor and accent. -/
def applyLightTheme (s : AgentState) : AgentState × List Effect :=
  let lightGtk := getDconfString s "light-gtk-theme"
  let lightShell := getDconfString s "light-shell-theme"
  let lightIcon := getDconfString s "light-icon-theme"
  let lightCursor := getDconfString s "light-cursor-theme"
  let lightAccent := getDconfString s "light-accent-color"
  let r1 := optSetInterface s "gtk-theme" lightGtk
  let r2 := applyShell r1.1 lightShell
  let r3 := optSetInterface r2.1 "icon-theme" lightIcon
  let r4 := optSetInterface r3.1 "cursor-theme" lightCursor
  let r5 := optSetInterface r4.1 "accent-color" lightAccent
  (r5.1, r1.2 ++ r2.2 ++ r3.2 ++ r4.2 ++ r5.2)

/-- `_applyDarkTheme()`: symmetric to `applyLightTheme` on the dark keys. -/
def applyDarkTheme (s : AgentState) : AgentState × List Effect :=
  let darkGtk := getDconfString s "dark-gtk-theme"
  let darkShell := getDconfString s "dark-shell-theme"
  let darkIcon := getDconfString s "dark-icon-theme"
  let darkCursor := getDconfString s "dark-cursor-theme"
  let darkAccent := getDconfString s "dark-accent-color"
  let r1 := optSetInterface s "gtk-theme" darkGtk
  let r2 := applyShell r1.1 darkShell
  let r3 := optSetInterface r2.1 "icon-theme" darkIcon
  let r4 := optSetInterface r3.1 "cursor-theme" darkCursor
  let r5 := optSetInterface r4.1 "accent-color" darkAccent
  (r5.1, r1.2 ++ r2.2 ++ r3.2 ++ r4.2 ++ r5.2)

/-- `_handleStyleChange()`: read back the color scheme; entering dark
snapshots into the light keys and applies the dark snapshot, entering
light snapshots into the dark keys and applies the light snapshot. -/
def handleStyleChange (s : AgentState) : AgentState × List Effect :=
  if isDarkScheme (s.interfaceSettings "color-scheme") then
    let r1 := saveCurrentThemeToLightKeys s
    let r2 := applyDarkTheme r1.1
    (r2.1, r1.2 ++ r2.2)
  else
    let r1 := saveCurrentThemeToDarkKeys s
    let r2 := applyLightTheme r1.1
    (r2.1, r1.2 ++ r2.2)

/-- `_handleWallpaperChange(changedKey)`.  `none` models the JS crash of
`set_string(key, null)` when a restore branch fires while the memorized
slot is still null; in every other case the handler completes and we
return the new state and effects. -/
def handleWallpaperChange (changedKey : String) (s : AgentState) :
    Option (AgentState × List Effect) :=
  let newValue := s.backgroundSettings changedKey
  let isDark := isDarkScheme (s.interfaceSettings "color-scheme")
  if isPairedWallpaper (some newValue) then
    if changedKey = "picture-uri" then some ({ s with storedLight := some newValue }, [])
    else some ({ s with storedDark := some newValue }, [])
  else
    if changedKey = "picture-uri" ∧ isDark then
      match s.storedLight with
      | some w =>
          some ({ s with backgroundSettings := setKey s.backgroundSettings "picture-uri" w },
                [Effect.setBackground "picture-uri" w])
      | none => none
    else if changedKey = "picture-uri-dark" ∧ ¬isDark then
      match s.storedDark with
      | some w =>
          some ({ s with backgroundSettings := setKey s.backgroundSettings "picture-uri-dark" w },
                [Effect.setBackground "picture-uri-dark" w])
      | none => none
    else
      if changedKey = "picture-uri" then some ({ s with storedLight := some newValue }, [])
      else some ({ s with storedDark := some newValue }, [])

/-- `_handleNightLightChange(nightLightActive)`: no-op once
`_getAutomaticMode()` reads false; otherwise set the color scheme for the
new ambient state and repair the corresponding wallpaper key against Mode
Memory when they differ.  `none` models the JS crash of writing a null
memorized slot. -/
def handleNightLightChange (active : Bool) (s : AgentState) :
    Option (AgentState × List Effect) :=
  let r := getAutomaticMode s
  let auto := r.1
  let s0 := r.2.1
  let e0 := r.2.2
  if ¬auto then some (s0, e0)
  else if active then
    let s1 := { s0 with interfaceSettings := setKey s0.interfaceSettings "color-scheme" "prefer-dark" }
    let e1 := e0 ++ [Effect.setInterface "color-scheme" "prefer-dark"]
    let currentDark := s1.backgroundSettings "picture-uri-dark"
    if s1.storedDark = some currentDark then some (s1, e1)
    else
      match s1.storedDark with
      | some w =>
          some ({ s1 with backgroundSettings := setKey s1.backgroundSettings "picture-uri-dark" w },
                e1 ++ [Effect.setBackground "picture-uri-dark" w])
      | none => none
  else
    let s1 := { s0 with interfaceSettings := setKey s0.interfaceSettings "color-scheme" "default" }
    let e1 := e0 ++ [Effect.setInterface "color-scheme" "default"]
    let currentLight := s1.backgroundSettings "picture-uri"
    if s1.storedLight = some currentLight then some (s1, e1)
    else
      match s1.storedLight with
      | some w =>
          some ({ s1 with backgroundSettings := setKey s1.backgroundSettings "picture-uri" w },
                e1 ++ [Effect.setBackground "picture-uri" w])
      | none => none

/-- The extension object's own fields, as touched by `disable()`.
`wallpaperConnected`/`styleConnected` track whether the two GSettings
signal subscriptions are live (`connect` sets them, `disconnect` clears
them); the handler-id fields model `_wallpaperChangeHandler` /
`_styleChangeHandler`. -/
structure ExtState where
  nightLightProxy : Option Unit
  settings : Option Unit
  interfaceSettings : Option Unit
  wallpaperChangeHandler : Option Nat
  styleChangeHandler : Option Nat
  wallpaperConnected : Bool
  styleConnected : Bool
  lastNightLightState : Option Bool
  storedLight : Option String
  storedDark : Option String

/-- `disable()`: null the proxy; if the background settings object exists,
disconnect the wallpaper handler (when one was recorded) and null the
object; likewise for the interface settings object and the style handler;
finally clear the cached night-light state. -/
def disable (e : ExtState) : ExtState :=
  let e1 := { e with nightLightProxy := none }
  let e2 :=
    if e1.settings.isSome then
      { e1 with
        wallpaperConnected :=
          if e1.wallpaperChangeHandler.isSome then false else e1.wallpaperConnected,
        settings := none }
    else e1
  let e3 :=
    if e2.interfaceSettings.isSome then
      { e2 with
        styleConnected :=
          if e2.styleChangeHandler.isSome then false else e2.styleConnected,
        interfaceSettings := none }
    else e2
  { e3 with lastNightLightState := none }

/-! ## Spec-side helper definitions -/

/-- A convenient everything-empty state for concrete instances. -/
def baseState : AgentState :=
  { backgroundSettings := fun _ => ""
  , interfaceSettings := fun _ => ""
  , tkStore := fun _ => none
  , userThemeName := none
  , storedLight := none
  , storedDark := none }

/-- An external actor writing one live interface key (e.g. the OS setting
`color-scheme`); the event that triggers `handleStyleChange`. -/
def setInterfaceKey (s : AgentState) (k v : String) : AgentState :=
  { s with interfaceSettings := setKey s.interfaceSettings k v }

/-- A full style-change round: the color-scheme key is set to `newScheme`
and the change notification runs `handleStyleChange`. -/
def styleEvent (newScheme : String) (s : AgentState) : AgentState :=
  (handleStyleChange (setInterfaceKey s "color-scheme" newScheme)).1

/-- The value a guarded applier write leaves at a live key: a truthy
stored value replaces the old one, a null or empty stored value leaves it
unchanged. -/
def appliedVal (old : String) : Option String → String
  | some t => if t = "" then old else t
  | none => old

/-- The user-theme key after the applier's shell step: reset (`none`)
for a null, empty or sentinel stored value, otherwise the stored name. -/
def shellApplied : Option String → Option String
  | some t => if t = "" ∨ t = "Default" then none else some t
  | none => none

/-- Trace of one guarded applier write. -/
def optTrace (k : String) (v : Option String) : List Effect :=
  if truthy v then [Effect.setInterface k (v.getD "")] else []

/-- Trace of the applier's shell step: always exactly one awaited
command. -/
def shellTrace : Option String → List Effect
  | some t => if t = "" ∨ t = "Default" then [Effect.shellReset] else [Effect.shellWrite t]
  | none => [Effect.shellReset]

/-- The value the snapshot functions store under `*-shell-theme`:
the live shell theme, or the sentinel when the live read is empty. -/
def shellSnapshotVal (s : AgentState) : String :=
  if getCurrentShellTheme s = "" then "Default" else getCurrentShellTheme s

/-- The Mode Memory slot matching a wallpaper key. -/
def memSlot (key : String) (s : AgentState) : Option String :=
  if key = "picture-uri" then s.storedLight else s.storedDark

/-- Updating the Mode Memory slot matching a wallpaper key. -/
def memWrite (key v : String) (s : AgentState) : AgentState :=
  if key = "picture-uri" then { s with storedLight := some v }
  else { s with storedDark := some v }

/-- The eager-mutation discipline the specification asserts: once a
suspension point is reached, no live-setting write follows it in the
handler's trace. -/
def eagerBeforeSuspend : List Effect → Bool
  | [] => true
  | e :: rest =>
      if isSuspend e then rest.all (fun x => !isLiveWrite x)
      else eagerBeforeSuspend rest

/-- Transcription of the claimed pairing classification: the URI is
non-null and its final path segment, after ignoring a *leading*
file-scheme prefix, ends with `-l.<ext>` or `-d.<ext>` for an
alphanumeric extension. -/
def pairedSpecClaim : Option String → Bool
  | none => false
  | some uri =>
      let stripped :=
        if listHasPrefixOf uri.toList "file://".toList then uri.toList.drop 7
        else uri.toList
      let filename := lastSegment stripped
      regexVariantTest 'l' filename || regexVariantTest 'd' filename

/-- The amended pairing classification: as claimed, except that the
file-scheme marker `file://` is removed at its *first occurrence anywhere
in the URI* (the JS `replace`) before the final path segment is taken,
and the empty URI is rejected outright. -/
def pairedSpecAmended : Option String → Bool
  | none => false
  | some uri =>
      uri != "" &&
        (regexVariantTest 'l' (lastSegment (replaceFirst uri.toList "file://".toList)) ||
         regexVariantTest 'd' (lastSegment (replaceFirst uri.toList "file://".toList)))

/-! ## Claim postconditions and concrete instances -/

/-- Postcondition of the wallpaper-change handler asserted by the
specification, for changed key `key` whose memorized slot holds `w`:
paired values go to Mode Memory with no live write; unpaired values on
the slot opposite to the active scheme are discarded and the live key is
rewritten to `w` with Mode Memory untouched; otherwise the value is
accepted into Mode Memory. -/
def wallpaperPost (key w : String) (s : AgentState) : Prop :=
  (isPairedWallpaper (some (s.backgroundSettings key)) = true →
    handleWallpaperChange key s = some (memWrite key (s.backgroundSettings key) s, [])) ∧
  (isPairedWallpaper (some (s.backgroundSettings key)) = false →
    ((key = "picture-uri" ∧ isDarkScheme (s.interfaceSettings "color-scheme") = true) ∨
     (key = "picture-uri-dark" ∧ isDarkScheme (s.interfaceSettings "color-scheme") = false)) →
    handleWallpaperChange key s =
      some ({ s with backgroundSettings := setKey s.backgroundSettings key w },
            [Effect.setBackground key w])) ∧
  (isPairedWallpaper (some (s.backgroundSettings key)) = false →
    (key = "picture-uri" → isDarkScheme (s.interfaceSettings "color-scheme") = false) →
    (key = "picture-uri-dark" → isDarkScheme (s.interfaceSettings "color-scheme") = true) →
    handleWallpaperChange key s = some (memWrite key (s.backgroundSettings key) s, []))

/-- Postcondition of the style-change handler asserted by the
specification: entering dark snapshots the five live attributes into the
light keys and then applies the dark snapshot, with every snapshot write
preceding every apply effect in the trace; symmetrically entering light. -/
def stylePost (s : AgentState) : Prop :=
  (isDarkScheme (s.interfaceSettings "color-scheme") = true →
    (handleStyleChange s).1.tkStore "light-gtk-theme" = some (s.interfaceSettings "gtk-theme") ∧
    (handleStyleChange s).1.tkStore "light-icon-theme" = some (s.interfaceSettings "icon-theme") ∧
    (handleStyleChange s).1.tkStore "light-cursor-theme" = some (s.interfaceSettings "cursor-theme") ∧
    (handleStyleChange s).1.tkStore "light-accent-color" = some (s.interfaceSettings "accent-color") ∧
    (handleStyleChange s).1.tkStore "light-shell-theme" = some (shellSnapshotVal s) ∧
    (handleStyleChange s).1.interfaceSettings "gtk-theme" =
      appliedVal (s.interfaceSettings "gtk-theme") (s.tkStore "dark-gtk-theme") ∧
    (handleStyleChange s).1.interfaceSettings "icon-theme" =
      appliedVal (s.interfaceSettings "icon-theme") (s.tkStore "dark-icon-theme") ∧
    (handleStyleChange s).1.interfaceSettings "cursor-theme" =
      appliedVal (s.interfaceSettings "cursor-theme") (s.tkStore "dark-cursor-theme") ∧
    (handleStyleChange s).1.interfaceSettings "accent-color" =
      appliedVal (s.interfaceSettings "accent-color") (s.tkStore "dark-accent-color") ∧
    (handleStyleChange s).1.userThemeName = shellApplied (s.tkStore "dark-shell-theme") ∧
    (∃ tail, (handleStyleChange s).2 =
        [Effect.tkWrite "light-gtk-theme" (s.interfaceSettings "gtk-theme"),
         Effect.tkWrite "light-icon-theme" (s.interfaceSettings "icon-theme"),
         Effect.tkWrite "light-cursor-theme" (s.interfaceSettings "cursor-theme"),
         Effect.tkWrite "light-accent-color" (s.interfaceSettings "accent-color"),
         Effect.tkWrite "light-shell-theme" (shellSnapshotVal s)] ++ tail ∧
      ∀ e ∈ tail, isTkWrite e = false)) ∧
  (isDarkScheme (s.interfaceSettings "color-scheme") = false →
    (handleStyleChange s).1.tkStore "dark-gtk-theme" = some (s.interfaceSettings "gtk-theme") ∧
    (handleStyleChange s).1.tkStore "dark-icon-theme" = some (s.interfaceSettings "icon-theme") ∧
    (handleStyleChange s).1.tkStore "dark-cursor-theme" = some (s.interfaceSettings "cursor-theme") ∧
    (handleStyleChange s).1.tkStore "dark-accent-color" = some (s.interfaceSettings "accent-color") ∧
    (handleStyleChange s).1.tkStore "dark-shell-theme" = some (shellSnapshotVal s) ∧
    (handleStyleChange s).1.interfaceSettings "gtk-theme" =
      appliedVal (s.interfaceSettings "gtk-theme") (s.tkStore "light-gtk-theme") ∧
    (handleStyleChange s).1.interfaceSettings "icon-theme" =
      appliedVal (s.interfaceSettings "icon-theme") (s.tkStore "light-icon-theme") ∧
    (handleStyleChange s).1.interfaceSettings "cursor-theme" =
      appliedVal (s.interfaceSettings "cursor-theme") (s.tkStore "light-cursor-theme") ∧
    (handleStyleChange s).1.interfaceSettings "accent-color" =
      appliedVal (s.interfaceSettings "accent-color") (s.tkStore "light-accent-color") ∧
    (handleStyleChange s).1.userThemeName = shellApplied (s.tkStore "light-shell-theme") ∧
    (∃ tail, (handleStyleChange s).2 =
        [Effect.tkWrite "dark-gtk-theme" (s.interfaceSettings "gtk-theme"),
         Effect.tkWrite "dark-icon-theme" (s.interfaceSettings "icon-theme"),
         Effect.tkWrite "dark-cursor-theme" (s.interfaceSettings "cursor-theme"),
         Effect.tkWrite "dark-accent-color" (s.interfaceSettings "accent-color"),
         Effect.tkWrite "dark-shell-theme" (shellSnapshotVal s)] ++ tail ∧
      ∀ e ∈ tail, isTkWrite e = false))

/-- The round-trip property: after switching to dark and back to light,
the five live theme attributes again equal their starting values. -/
def roundTripPost (s : AgentState) : Prop :=
  (styleEvent "default" (styleEvent "prefer-dark" s)).interfaceSettings "gtk-theme" =
    s.interfaceSettings "gtk-theme" ∧
  (styleEvent "default" (styleEvent "prefer-dark" s)).interfaceSettings "icon-theme" =
    s.interfaceSettings "icon-theme" ∧
  (styleEvent "default" (styleEvent "prefer-dark" s)).interfaceSettings "cursor-theme" =
    s.interfaceSettings "cursor-theme" ∧
  (styleEvent "default" (styleEvent "prefer-dark" s)).interfaceSettings "accent-color" =
    s.interfaceSettings "accent-color" ∧
  getCurrentShellTheme (styleEvent "default" (styleEvent "prefer-dark" s)) =
    getCurrentShellTheme s

/-- Shell-theme sentinel postcondition for both appliers: an absent,
empty or `"Default"` stored value leads to a reset command and to no
write command at all; any other stored value is written verbatim; no
write command ever carries the payload `"Default"`. -/
def sentinelPost (s : AgentState) : Prop :=
  ((s.tkStore "light-shell-theme" = none ∨ s.tkStore "light-shell-theme" = some "" ∨
      s.tkStore "light-shell-theme" = some "Default") →
    Effect.shellReset ∈ (applyLightTheme s).2 ∧
      ∀ v, Effect.shellWrite v ∉ (applyLightTheme s).2) ∧
  (∀ v, v ≠ "" → v ≠ "Default" → s.tkStore "light-shell-theme" = some v →
    Effect.shellWrite v ∈ (applyLightTheme s).2 ∧
      Effect.shellReset ∉ (applyLightTheme s).2) ∧
  (∀ v, Effect.shellWrite v ∈ (applyLightTheme s).2 →
    v ≠ "Default" ∧ s.tkStore "light-shell-theme" = some v) ∧
  ((s.tkStore "dark-shell-theme" = none ∨ s.tkStore "dark-shell-theme" = some "" ∨
      s.tkStore "dark-shell-theme" = some "Default") →
    Effect.shellReset ∈ (applyDarkTheme s).2 ∧
      ∀ v, Effect.shellWrite v ∉ (applyDarkTheme s).2) ∧
  (∀ v, v ≠ "" → v ≠ "Default" → s.tkStore "dark-shell-theme" = some v →
    Effect.shellWrite v ∈ (applyDarkTheme s).2 ∧
      Effect.shellReset ∉ (applyDarkTheme s).2) ∧
  (∀ v, Effect.shellWrite v ∈ (applyDarkTheme s).2 →
    v ≠ "Default" ∧ s.tkStore "dark-shell-theme" = some v)

/-- Postcondition of the first read of the automatic-mode flag on an
unset store: the read yields true, persists `true`, and a subsequent read
yields true without further change. -/
def firstReadPost (s : AgentState) : Prop :=
  (getAutomaticMode s).1 = true ∧
  ((getAutomaticMode s).2.1).tkStore "automatic-mode" = some "true" ∧
  (getAutomaticMode ((getAutomaticMode s).2.1)).1 = true ∧
  (getAutomaticMode ((getAutomaticMode s).2.1)).2.1 = (getAutomaticMode s).2.1

/-- The suspension discipline the appliers actually follow: the trace is
some non-suspending prefix whose only live writes are to `gtk-theme`, a
single awaited shell command, and a non-suspending tail whose live writes
are to `icon-theme`, `cursor-theme` or `accent-color` only. -/
def applySplitPost (t : List Effect) : Prop :=
  ∃ pre sh post, t = pre ++ sh :: post ∧ isSuspend sh = true ∧
    (∀ e ∈ pre, isSuspend e = false) ∧
    (∀ e ∈ post, isSuspend e = false) ∧
    (∀ e ∈ pre, isLiveWrite e = true → ∃ v, e = Effect.setInterface "gtk-theme" v) ∧
    (∀ e ∈ post, isLiveWrite e = true →
      (∃ v, e = Effect.setInterface "icon-theme" v) ∨
      (∃ v, e = Effect.setInterface "cursor-theme" v) ∨
      (∃ v, e = Effect.setInterface "accent-color" v))

/-- Teardown postcondition the code actually satisfies: the proxy,
settings objects and cached ambient state are cleared, live subscriptions
are disconnected, and Mode Memory keeps its previous values. -/
def disablePost (e : ExtState) : Prop :=
  (disable e).nightLightProxy = none ∧
  (disable e).settings = none ∧
  (disable e).interfaceSettings = none ∧
  (disable e).lastNightLightState = none ∧
  (e.settings.isSome = true → e.wallpaperChangeHandler.isSome = true →
    (disable e).wallpaperConnected = false) ∧
  (e.interfaceSettings.isSome = true → e.styleChangeHandler.isSome = true →
    (disable e).styleConnected = false) ∧
  (disable e).storedLight = e.storedLight ∧
  (disable e).storedDark = e.storedDark

/-- Snapshot shell-theme invariant: both snapshot functions store exactly
`shellSnapshotVal` under their shell key, that value is never empty, and
it is the live shell theme when one is set, the sentinel otherwise. -/
def snapshotShellPost (s : AgentState) : Prop :=
  (saveCurrentThemeToLightKeys s).1.tkStore "light-shell-theme" = some (shellSnapshotVal s) ∧
  (saveCurrentThemeToDarkKeys s).1.tkStore "dark-shell-theme" = some (shellSnapshotVal s) ∧
  shellSnapshotVal s ≠ "" ∧
  (getCurrentShellTheme s ≠ "" → shellSnapshotVal s = getCurrentShellTheme s) ∧
  (getCurrentShellTheme s = "" → shellSnapshotVal s = "Default") ∧
  (∀ v, Effect.tkWrite "light-shell-theme" v ∈ (saveCurrentThemeToLightKeys s).2 →
    v = shellSnapshotVal s) ∧
  (∀ v, Effect.tkWrite "dark-shell-theme" v ∈ (saveCurrentThemeToDarkKeys s).2 →
    v = shellSnapshotVal s)

/-- Wallpaper-change state for a paired value on the light key, with both
memory slots populated. -/
def c1state : AgentState :=
  { baseState with
    backgroundSettings := fun k => if k = "picture-uri" then "wall/sunset-l.jpg" else "other",
    storedLight := some "memL"
    storedDark := some "memD" }

/-- Style-change state: dark scheme already live, distinct attributes,
a dark snapshot present. -/
def c2state : AgentState :=
  { baseState with
    interfaceSettings := fun k =>
      if k = "color-scheme" then "prefer-dark"
      else if k = "gtk-theme" then "Adwaita" else "X",
    tkStore := fun k => if k = "dark-gtk-theme" then some "Adwaita-dark" else none }

/-- Round-trip counterexample state: light mode, empty live gtk theme,
non-empty dark gtk snapshot. -/
def c3state : AgentState :=
  { baseState with
    interfaceSettings := fun k =>
      if k = "gtk-theme" then "" else if k = "color-scheme" then "default" else "X",
    tkStore := fun k => if k = "dark-gtk-theme" then some "DarkG" else none }

/-- Round-trip witness state: light mode, all five attributes non-empty
and the shell theme not the sentinel. -/
def c3good : AgentState :=
  { baseState with
    interfaceSettings := fun k =>
      if k = "color-scheme" then "default"
      else if k = "gtk-theme" then "Adwaita"
      else if k = "icon-theme" then "Papirus"
      else if k = "cursor-theme" then "Bibata"
      else if k = "accent-color" then "teal" else "",
    userThemeName := some "Orchis",
    tkStore := fun k => if k = "dark-gtk-theme" then some "Adwaita-dark" else none }

/-- Applier state with a shell sentinel stored and a non-empty icon
snapshot (so a live write follows the awaited command). -/
def c8state : AgentState :=
  { baseState with
    tkStore := fun k => if k = "light-icon-theme" then some "Papirus" else none }

/-- Applier state with a real stored shell theme. -/
def c5state : AgentState :=
  { baseState with
    tkStore := fun k =>
      if k = "light-shell-theme" then some "Orchis"
      else if k = "dark-shell-theme" then some "Default" else none }

/-- Night-light state with the automatic-mode flag persisted as false. -/
def c6state : AgentState :=
  { baseState with
    tkStore := fun k => if k = "automatic-mode" then some "false" else none }

/-- A fully populated extension object, as it looks while enabled. -/
def c9ext : ExtState :=
  { nightLightProxy := some ()
  , settings := some ()
  , interfaceSettings := some ()
  , wallpaperChangeHandler := some 1
  , styleChangeHandler := some 2
  , wallpaperConnected := true
  , styleConnected := true
  , lastNightLightState := some true
  , storedLight := some "wl"
  , storedDark := some "wd" }

/-- State whose user-theme name is set (for the snapshot invariant
witness). -/
def c10state : AgentState :=
  { baseState with userThemeName := some "Orchis" }

/-! ## Component lemmas -/

theorem optSetInterface_fst_tk (s : AgentState) (k : String) (v : Option String) :
    (optSetInterface s k v).1.tkStore = s.tkStore := by
  unfold optSetInterface; split <;> rfl

theorem optSetInterface_fst_user (s : AgentState) (k : String) (v : Option String) :
    (optSetInterface s k v).1.userThemeName = s.userThemeName := by
  unfold optSetInterface; split <;> rfl

theorem optSetInterface_fst_bg (s : AgentState) (k : String) (v : Option String) :
    (optSetInterface s k v).1.backgroundSettings = s.backgroundSettings := by
  unfold optSetInterface; split <;> rfl

theorem optSetInterface_fst_storedL (s : AgentState) (k : String) (v : Option String) :
    (optSetInterface s k v).1.storedLight = s.storedLight := by
  unfold optSetInterface; split <;> rfl

theorem optSetInterface_fst_storedD (s : AgentState) (k : String) (v : Option String) :
    (optSetInterface s k v).1.storedDark = s.storedDark := by
  unfold optSetInterface; split <;> rfl

theorem optSetInterface_fst_iface (s : AgentState) (k : String) (v : Option String)
    (k' : String) :
    (optSetInterface s k v).1.interfaceSettings k' =
      if k' = k then appliedVal (s.interfaceSettings k') v
      else s.interfaceSettings k' := by
  rcases v with _ | t
  · simp [optSetInterface, truthy, appliedVal]
  · by_cases h : t = ""
    · subst h; simp [optSetInterface, truthy, appliedVal]
    · simp [optSetInterface, truthy, h, appliedVal, setKey]

theorem optSetInterface_snd (s : AgentState) (k : String) (v : Option String) :
    (optSetInterface s k v).2 = optTrace k v := by
  unfold optSetInterface optTrace; split <;> rfl

theorem applyShell_fst_tk (s : AgentState) (v : Option String) :
    (applyShell s v).1.tkStore = s.tkStore := by
  rcases v with _ | t
  · rfl
  · by_cases h : t = "" ∨ t = "Default" <;> simp [applyShell, shellApplied, shellTrace, h]

theorem applyShell_fst_iface (s : AgentState) (v : Option String) :
    (applyShell s v).1.interfaceSettings = s.interfaceSettings := by
  rcases v with _ | t
  · rfl
  · by_cases h : t = "" ∨ t = "Default" <;> simp [applyShell, shellApplied, shellTrace, h]

theorem applyShell_fst_bg (s : AgentState) (v : Option String) :
    (applyShell s v).1.backgroundSettings = s.backgroundSettings := by
  rcases v with _ | t
  · rfl
  · by_cases h : t = "" ∨ t = "Default" <;> simp [applyShell, shellApplied, shellTrace, h]

theorem applyShell_fst_storedL (s : AgentState) (v : Option String) :
    (applyShell s v).1.storedLight = s.storedLight := by
  rcases v with _ | t
  · rfl
  · by_cases h : t = "" ∨ t = "Default" <;> simp [applyShell, shellApplied, shellTrace, h]

theorem applyShell_fst_storedD (s : AgentState) (v : Option String) :
    (applyShell s v).1.storedDark = s.storedDark := by
  rcases v with _ | t
  · rfl
  · by_cases h : t = "" ∨ t = "Default" <;> simp [applyShell, shellApplied, shellTrace, h]

theorem applyShell_fst_user (s : AgentState) (v : Option String) :
    (applyShell s v).1.userThemeName = shellApplied v := by
  rcases v with _ | t
  · rfl
  · by_cases h : t = "" ∨ t = "Default" <;> simp [applyShell, shellApplied, shellTrace, h]

theorem applyShell_snd (s : AgentState) (v : Option String) :
    (applyShell s v).2 = shellTrace v := by
  rcases v with _ | t
  · rfl
  · by_cases h : t = "" ∨ t = "Default" <;> simp [applyShell, shellApplied, shellTrace, h]

theorem applyLightTheme_fst_tk (s : AgentState) :
    (applyLightTheme s).1.tkStore = s.tkStore := by
  simp [applyLightTheme, optSetInterface_fst_tk, applyShell_fst_tk]

theorem applyLightTheme_fst_bg (s : AgentState) :
    (applyLightTheme s).1.backgroundSettings = s.backgroundSettings := by
  simp [applyLightTheme, optSetInterface_fst_bg, applyShell_fst_bg]

theorem applyLightTheme_fst_storedL (s : AgentState) :
    (applyLightTheme s).1.storedLight = s.storedLight := by
  simp [applyLightTheme, optSetInterface_fst_storedL, applyShell_fst_storedL]

theorem applyLightTheme_fst_storedD (s : AgentState) :
    (applyLightTheme s).1.storedDark = s.storedDark := by
  simp [applyLightTheme, optSetInterface_fst_storedD, applyShell_fst_storedD]

theorem applyLightTheme_fst_user (s : AgentState) :
    (applyLightTheme s).1.userThemeName =
      shellApplied (s.tkStore "light-shell-theme") := by
  simp [applyLightTheme, optSetInterface_fst_user, applyShell_fst_user,
    optSetInterface_fst_tk, getDconfString]

theorem applyLightTheme_fst_iface_gtk (s : AgentState) :
    (applyLightTheme s).1.interfaceSettings "gtk-theme" =
      appliedVal (s.interfaceSettings "gtk-theme") (s.tkStore "light-gtk-theme") := by
  simp [applyLightTheme, optSetInterface_fst_iface, applyShell_fst_iface, getDconfString]

theorem applyLightTheme_fst_iface_icon (s : AgentState) :
    (applyLightTheme s).1.interfaceSettings "icon-theme" =
      appliedVal (s.interfaceSettings "icon-theme") (s.tkStore "light-icon-theme") := by
  simp [applyLightTheme, optSetInterface_fst_iface, applyShell_fst_iface, getDconfString]

theorem applyLightTheme_fst_iface_cursor (s : AgentState) :
    (applyLightTheme s).1.interfaceSettings "cursor-theme" =
      appliedVal (s.interfaceSettings "cursor-theme") (s.tkStore "light-cursor-theme") := by
  simp [applyLightTheme, optSetInterface_fst_iface, applyShell_fst_iface, getDconfString]

theorem applyLightTheme_fst_iface_accent (s : AgentState) :
    (applyLightTheme s).1.interfaceSettings "accent-color" =
      appliedVal (s.interfaceSettings "accent-color") (s.tkStore "light-accent-color") := by
  simp [applyLightTheme, optSetInterface_fst_iface, applyShell_fst_iface, getDconfString]

theorem applyLightTheme_snd (s : AgentState) :
    (applyLightTheme s).2 =
      optTrace "gtk-theme" (s.tkStore "light-gtk-theme") ++
      shellTrace (s.tkStore "light-shell-theme") ++
      optTrace "icon-theme" (s.tkStore "light-icon-theme") ++
      optTrace "cursor-theme" (s.tkStore "light-cursor-theme") ++
      optTrace "accent-color" (s.tkStore "light-accent-color") := by
  simp [applyLightTheme, optSetInterface_snd, applyShell_snd, getDconfString]

theorem applyDarkTheme_fst_tk (s : AgentState) :
    (applyDarkTheme s).1.tkStore = s.tkStore := by
  simp [applyDarkTheme, optSetInterface_fst_tk, applyShell_fst_tk]

theorem applyDarkTheme_fst_bg (s : AgentState) :
    (applyDarkTheme s).1.backgroundSettings = s.backgroundSettings := by
  simp [applyDarkTheme, optSetInterface_fst_bg, applyShell_fst_bg]

theorem applyDarkTheme_fst_storedL (s : AgentState) :
    (applyDarkTheme s).1.storedLight = s.storedLight := by
  simp [applyDarkTheme, optSetInterface_fst_storedL, applyShell_fst_storedL]

theorem applyDarkTheme_fst_storedD (s : AgentState) :
    (applyDarkTheme s).1.storedDark = s.storedDark := by
  simp [applyDarkTheme, optSetInterface_fst_storedD, applyShell_fst_storedD]

theorem applyDarkTheme_fst_user (s : AgentState) :
    (applyDarkTheme s).1.userThemeName =
      shellApplied (s.tkStore "dark-shell-theme") := by
  simp [applyDarkTheme, optSetInterface_fst_user, applyShell_fst_user,
    optSetInterface_fst_tk, getDconfString]

theorem applyDarkTheme_fst_iface_gtk (s : AgentState) :
    (applyDarkTheme s).1.interfaceSettings "gtk-theme" =
      appliedVal (s.interfaceSettings "gtk-theme") (s.tkStore "dark-gtk-theme") := by
  simp [applyDarkTheme, optSetInterface_fst_iface, applyShell_fst_iface, getDconfString]

theorem applyDarkTheme_fst_iface_icon (s : AgentState) :
    (applyDarkTheme s).1.interfaceSettings "icon-theme" =
      appliedVal (s.interfaceSettings "icon-theme") (s.tkStore "dark-icon-theme") := by
  simp [applyDarkTheme, optSetInterface_fst_iface, applyShell_fst_iface, getDconfString]

theorem applyDarkTheme_fst_iface_cursor (s : AgentState) :
    (applyDarkTheme s).1.interfaceSettings "cursor-theme" =
      appliedVal (s.interfaceSettings "cursor-theme") (s.tkStore "dark-cursor-theme") := by
  simp [applyDarkTheme, optSetInterface_fst_iface, applyShell_fst_iface, getDconfString]

theorem applyDarkTheme_fst_iface_accent (s : AgentState) :
    (applyDarkTheme s).1.interfaceSettings "accent-color" =
      appliedVal (s.interfaceSettings "accent-color") (s.tkStore "dark-accent-color") := by
  simp [applyDarkTheme, optSetInterface_fst_iface, applyShell_fst_iface, getDconfString]

theorem applyDarkTheme_snd (s : AgentState) :
    (applyDarkTheme s).2 =
      optTrace "gtk-theme" (s.tkStore "dark-gtk-theme") ++
      shellTrace (s.tkStore "dark-shell-theme") ++
      optTrace "icon-theme" (s.tkStore "dark-icon-theme") ++
      optTrace "cursor-theme" (s.tkStore "dark-cursor-theme") ++
      optTrace "accent-color" (s.tkStore "dark-accent-color") := by
  simp [applyDarkTheme, optSetInterface_snd, applyShell_snd, getDconfString]

theorem saveLight_fst_iface (s : AgentState) :
    (saveCurrentThemeToLightKeys s).1.interfaceSettings = s.interfaceSettings := rfl

theorem saveLight_fst_user (s : AgentState) :
    (saveCurrentThemeToLightKeys s).1.userThemeName = s.userThemeName := rfl

theorem saveLight_fst_bg (s : AgentState) :
    (saveCurrentThemeToLightKeys s).1.backgroundSettings = s.backgroundSettings := rfl

theorem saveLight_fst_storedL (s : AgentState) :
    (saveCurrentThemeToLightKeys s).1.storedLight = s.storedLight := rfl

theorem saveLight_fst_storedD (s : AgentState) :
    (saveCurrentThemeToLightKeys s).1.storedDark = s.storedDark := rfl

theorem saveLight_tk_gtk (s : AgentState) :
    (saveCurrentThemeToLightKeys s).1.tkStore "light-gtk-theme" =
      some (s.interfaceSettings "gtk-theme") := rfl

theorem saveLight_tk_icon (s : AgentState) :
    (saveCurrentThemeToLightKeys s).1.tkStore "light-icon-theme" =
      some (s.interfaceSettings "icon-theme") := rfl

theorem saveLight_tk_cursor (s : AgentState) :
    (saveCurrentThemeToLightKeys s).1.tkStore "light-cursor-theme" =
      some (s.interfaceSettings "cursor-theme") := rfl

theorem saveLight_tk_accent (s : AgentState) :
    (saveCurrentThemeToLightKeys s).1.tkStore "light-accent-color" =
      some (s.interfaceSettings "accent-color") := rfl

theorem saveLight_tk_shell (s : AgentState) :
    (saveCurrentThemeToLightKeys s).1.tkStore "light-shell-theme" =
      some (shellSnapshotVal s) := rfl

theorem saveLight_tk_dark_gtk (s : AgentState) :
    (saveCurrentThemeToLightKeys s).1.tkStore "dark-gtk-theme" =
      s.tkStore "dark-gtk-theme" := rfl

theorem saveLight_tk_dark_icon (s : AgentState) :
    (saveCurrentThemeToLightKeys s).1.tkStore "dark-icon-theme" =
      s.tkStore "dark-icon-theme" := rfl

theorem saveLight_tk_dark_cursor (s : AgentState) :
    (saveCurrentThemeToLightKeys s).1.tkStore "dark-cursor-theme" =
      s.tkStore "dark-cursor-theme" := rfl

theorem saveLight_tk_dark_accent (s : AgentState) :
    (saveCurrentThemeToLightKeys s).1.tkStore "dark-accent-color" =
      s.tkStore "dark-accent-color" := rfl

theorem saveLight_tk_dark_shell (s : AgentState) :
    (saveCurrentThemeToLightKeys s).1.tkStore "dark-shell-theme" =
      s.tkStore "dark-shell-theme" := rfl

theorem saveLight_snd (s : AgentState) :
    (saveCurrentThemeToLightKeys s).2 =
      [Effect.tkWrite "light-gtk-theme" (s.interfaceSettings "gtk-theme"),
       Effect.tkWrite "light-icon-theme" (s.interfaceSettings "icon-theme"),
       Effect.tkWrite "light-cursor-theme" (s.interfaceSettings "cursor-theme"),
       Effect.tkWrite "light-accent-color" (s.interfaceSettings "accent-color"),
       Effect.tkWrite "light-shell-theme" (shellSnapshotVal s)] := rfl

theorem saveDark_fst_iface (s : AgentState) :
    (saveCurrentThemeToDarkKeys s).1.interfaceSettings = s.interfaceSettings := rfl

theorem saveDark_fst_user (s : AgentState) :
    (saveCurrentThemeToDarkKeys s).1.userThemeName = s.userThemeName := rfl

theorem saveDark_fst_bg (s : AgentState) :
    (saveCurrentThemeToDarkKeys s).1.backgroundSettings = s.backgroundSettings := rfl

theorem saveDark_fst_storedL (s : AgentState) :
    (saveCurrentThemeToDarkKeys s).1.storedLight = s.storedLight := rfl

theorem saveDark_fst_storedD (s : AgentState) :
    (saveCurrentThemeToDarkKeys s).1.storedDark = s.storedDark := rfl

theorem saveDark_tk_gtk (s : AgentState) :
    (saveCurrentThemeToDarkKeys s).1.tkStore "dark-gtk-theme" =
      some (s.interfaceSettings "gtk-theme") := rfl

theorem saveDark_tk_icon (s : AgentState) :
    (saveCurrentThemeToDarkKeys s).1.tkStore "dark-icon-theme" =
      some (s.interfaceSettings "icon-theme") := rfl

theorem saveDark_tk_cursor (s : AgentState) :
    (saveCurrentThemeToDarkKeys s).1.tkStore "dark-cursor-theme" =
      some (s.interfaceSettings "cursor-theme") := rfl

theorem saveDark_tk_accent (s : AgentState) :
    (saveCurrentThemeToDarkKeys s).1.tkStore "dark-accent-color" =
      some (s.interfaceSettings "accent-color") := rfl

theorem saveDark_tk_shell (s : AgentState) :
    (saveCurrentThemeToDarkKeys s).1.tkStore "dark-shell-theme" =
      some (shellSnapshotVal s) := rfl

theorem saveDark_tk_light_gtk (s : AgentState) :
    (saveCurrentThemeToDarkKeys s).1.tkStore "light-gtk-theme" =
      s.tkStore "light-gtk-theme" := rfl

theorem saveDark_tk_light_icon (s : AgentState) :
    (saveCurrentThemeToDarkKeys s).1.tkStore "light-icon-theme" =
      s.tkStore "light-icon-theme" := rfl

theorem saveDark_tk_light_cursor (s : AgentState) :
    (saveCurrentThemeToDarkKeys s).1.tkStore "light-cursor-theme" =
      s.tkStore "light-cursor-theme" := rfl

theorem saveDark_tk_light_accent (s : AgentState) :
    (saveCurrentThemeToDarkKeys s).1.tkStore "light-accent-color" =
      s.tkStore "light-accent-color" := rfl

theorem saveDark_tk_light_shell (s : AgentState) :
    (saveCurrentThemeToDarkKeys s).1.tkStore "light-shell-theme" =
      s.tkStore "light-shell-theme" := rfl

theorem saveDark_snd (s : AgentState) :
    (saveCurrentThemeToDarkKeys s).2 =
      [Effect.tkWrite "dark-gtk-theme" (s.interfaceSettings "gtk-theme"),
       Effect.tkWrite "dark-icon-theme" (s.interfaceSettings "icon-theme"),
       Effect.tkWrite "dark-cursor-theme" (s.interfaceSettings "cursor-theme"),
       Effect.tkWrite "dark-accent-color" (s.interfaceSettings "accent-color"),
       Effect.tkWrite "dark-shell-theme" (shellSnapshotVal s)] := rfl

theorem mem_optTrace (e : Effect) (k : String) (v : Option String)
    (he : e ∈ optTrace k v) : ∃ w, e = Effect.setInterface k w := by
  unfold optTrace at he
  split at he
  · simp at he; exact ⟨v.getD "", he⟩
  · simp at he

theorem optTrace_not_suspend (e : Effect) (k : String) (v : Option String)
    (he : e ∈ optTrace k v) : isSuspend e = false := by
  obtain ⟨w, rfl⟩ := mem_optTrace e k v he; rfl

theorem optTrace_not_tk (e : Effect) (k : String) (v : Option String)
    (he : e ∈ optTrace k v) : isTkWrite e = false := by
  obtain ⟨w, rfl⟩ := mem_optTrace e k v he; rfl

theorem shellWrite_not_mem_optTrace (x : String) (k : String) (v : Option String) :
    Effect.shellWrite x ∉ optTrace k v := by
  intro he
  obtain ⟨w, hw⟩ := mem_optTrace _ k v he
  exact Effect.noConfusion hw

theorem shellReset_not_mem_optTrace (k : String) (v : Option String) :
    Effect.shellReset ∉ optTrace k v := by
  intro he
  obtain ⟨w, hw⟩ := mem_optTrace _ k v he
  exact Effect.noConfusion hw

theorem shellTrace_single (v : Option String) :
    ∃ sh, shellTrace v = [sh] ∧ isSuspend sh = true := by
  rcases v with _ | t
  · exact ⟨Effect.shellReset, rfl, rfl⟩
  · by_cases h : t = "" ∨ t = "Default"
    · exact ⟨Effect.shellReset, by simp [shellTrace, h], rfl⟩
    · exact ⟨Effect.shellWrite t, by simp [shellTrace, h], rfl⟩

theorem shellTrace_not_tk (e : Effect) (v : Option String)
    (he : e ∈ shellTrace v) : isTkWrite e = false := by
  rcases v with _ | t
  · simp [shellTrace] at he; subst he; rfl
  · by_cases h : t = "" ∨ t = "Default" <;> simp [shellTrace, h] at he <;> subst he <;> rfl

theorem mem_shellTrace_write (v : String) (w : Option String) :
    Effect.shellWrite v ∈ shellTrace w ↔ (w = some v ∧ v ≠ "" ∧ v ≠ "Default") := by
  rcases w with _ | t
  · simp [shellTrace]
  · by_cases h : t = "" ∨ t = "Default"
    · simp only [shellTrace, if_pos h]
      constructor
      · intro he; simp at he
      · rintro ⟨ht, h1, h2⟩
        injection ht with ht
        subst ht
        rcases h with h | h <;> [exact absurd h h1; exact absurd h h2]
    · simp only [shellTrace, if_neg h]
      push_neg at h
      constructor
      · intro he
        simp at he
        subst he
        exact ⟨rfl, h.1, h.2⟩
      · rintro ⟨ht, -, -⟩
        injection ht with ht
        subst ht
        simp

theorem mem_shellTrace_reset (w : Option String) :
    Effect.shellReset ∈ shellTrace w ↔ (w = none ∨ w = some "" ∨ w = some "Default") := by
  rcases w with _ | t
  · simp [shellTrace]
  · by_cases h : t = "" ∨ t = "Default"
    · simp only [shellTrace, if_pos h]
      rcases h with h | h <;> subst h <;> simp
    · simp only [shellTrace, if_neg h]
      push_neg at h
      constructor
      · intro he; simp at he
      · rintro (hn | h1 | h2)
        · exact Option.noConfusion hn
        · injection h1 with h1; exact absurd h1 h.1
        · injection h2 with h2; exact absurd h2 h.2

theorem handleStyleChange_dark (s : AgentState)
    (hd : isDarkScheme (s.interfaceSettings "color-scheme") = true) :
    handleStyleChange s =
      ((applyDarkTheme (saveCurrentThemeToLightKeys s).1).1,
       (saveCurrentThemeToLightKeys s).2 ++
         (applyDarkTheme (saveCurrentThemeToLightKeys s).1).2) := by
  simp [handleStyleChange, hd]

theorem handleStyleChange_light (s : AgentState)
    (hl : isDarkScheme (s.interfaceSettings "color-scheme") = false) :
    handleStyleChange s =
      ((applyLightTheme (saveCurrentThemeToDarkKeys s).1).1,
       (saveCurrentThemeToDarkKeys s).2 ++
         (applyLightTheme (saveCurrentThemeToDarkKeys s).1).2) := by
  simp [handleStyleChange, hl]

theorem applyLight_shellWrite_mem (s : AgentState) (v : String) :
    Effect.shellWrite v ∈ (applyLightTheme s).2 ↔
      (s.tkStore "light-shell-theme" = some v ∧ v ≠ "" ∧ v ≠ "Default") := by
  rw [applyLightTheme_snd]
  simp [List.mem_append, shellWrite_not_mem_optTrace, mem_shellTrace_write]

theorem applyLight_shellReset_mem (s : AgentState) :
    Effect.shellReset ∈ (applyLightTheme s).2 ↔
      (s.tkStore "light-shell-theme" = none ∨ s.tkStore "light-shell-theme" = some "" ∨
        s.tkStore "light-shell-theme" = some "Default") := by
  rw [applyLightTheme_snd]
  simp [List.mem_append, shellReset_not_mem_optTrace, mem_shellTrace_reset]

theorem applyDark_shellWrite_mem (s : AgentState) (v : String) :
    Effect.shellWrite v ∈ (applyDarkTheme s).2 ↔
      (s.tkStore "dark-shell-theme" = some v ∧ v ≠ "" ∧ v ≠ "Default") := by
  rw [applyDarkTheme_snd]
  simp [List.mem_append, shellWrite_not_mem_optTrace, mem_shellTrace_write]

theorem applyDark_shellReset_mem (s : AgentState) :
    Effect.shellReset ∈ (applyDarkTheme s).2 ↔
      (s.tkStore "dark-shell-theme" = none ∨ s.tkStore "dark-shell-theme" = some "" ∨
        s.tkStore "dark-shell-theme" = some "Default") := by
  rw [applyDarkTheme_snd]
  simp [List.mem_append, shellReset_not_mem_optTrace, mem_shellTrace_reset]

/-! ## Claims -/

/-- C4 counterexample: for the URI `photo-lfile://.png` the code's
classifier answers true (removing the mid-string `file://` glues
`photo-l` onto `.png`), while the claimed characterisation — final path
segment after ignoring a *leading* file-scheme prefix — answers false, so
the claimed "exactly when" equivalence fails. -/
theorem isPairedWallpaper_claim_counterexample :
    isPairedWallpaper (some "photo-lfile://.png") = true ∧
    pairedSpecClaim (some "photo-lfile://.png") = false := by decide

/-- C4 (amended): `_isPairedWallpaper` returns true exactly when the URI
is non-null, non-empty, and — after removing the first occurrence of
`file://` anywhere in the URI — its final path segment ends in `-l.<ext>`
or `-d.<ext>` with an alphanumeric extension; in particular it is true
for `.../sunset-l.jpg` and `.../sunset-d.png`, and false for
`.../random.jpg` and for null. -/
theorem isPairedWallpaper_amended (u : Option String) :
    isPairedWallpaper u = pairedSpecAmended u ∧
    isPairedWallpaper (some "wall/sunset-l.jpg") = true ∧
    isPairedWallpaper (some "wall/sunset-d.png") = true ∧
    isPairedWallpaper (some "wall/random.jpg") = false ∧
    isPairedWallpaper none = false := by
  refine ⟨?_, by decide, by decide, by decide, rfl⟩
  rcases u with _ | uri
  · rfl
  · by_cases h : uri = ""
    · simp [isPairedWallpaper, pairedSpecAmended, h]
    · simp [isPairedWallpaper, pairedSpecAmended, h]

/-- C6: while the persisted automatic-mode flag reads false, a night-light
activation change performs no writes at all — the handler returns the
state unchanged with an empty effect trace. -/
theorem nightlight_gating (active : Bool) (s : AgentState)
    (h : getDconfBoolean s "automatic-mode" = some false) :
    handleNightLightChange active s = some (s, []) := by
  simp [handleNightLightChange, getAutomaticMode, h]

/-- C6 witness: concrete state with `automatic-mode = false`. -/
theorem nightlight_gating_witness :
    getDconfBoolean c6state "automatic-mode" = some false ∧
    handleNightLightChange true c6state = some (c6state, []) :=
  ⟨rfl, nightlight_gating true c6state rfl⟩

/-- C7: reading the automatic-mode flag on an unset store returns true,
persists `true` under the key, and a subsequent read returns true without
further state change. -/
theorem automatic_mode_first_read (s : AgentState)
    (h : s.tkStore "automatic-mode" = none) : firstReadPost s := by
  unfold firstReadPost
  simp [getAutomaticMode, getDconfBoolean, h, setKeyO]

/-- C7 witness: the empty store. -/
theorem automatic_mode_first_read_witness :
    baseState.tkStore "automatic-mode" = none ∧ firstReadPost baseState :=
  ⟨rfl, automatic_mode_first_read baseState rfl⟩

/-- C9 counterexample: after `disable()` on a fully populated extension
object, both Mode Memory slots still hold their wallpaper URIs — they are
not reset to their initial null values as claimed. -/
theorem disable_counterexample :
    (disable c9ext).storedLight = some "wl" ∧
    (disable c9ext).storedDark = some "wd" ∧
    ¬((disable c9ext).storedLight = none ∧ (disable c9ext).storedDark = none) := by
  decide

/-- C9 (amended): after `disable()` the night-light proxy, both settings
objects and the cached ambient state are cleared and both live
subscriptions are disconnected, but Mode Memory (the two wallpaper slots)
retains its previous values. -/
theorem disable_postcondition (e : ExtState) : disablePost e := by
  unfold disablePost disable
  by_cases h1 : e.settings.isSome <;> by_cases h2 : e.interfaceSettings.isSome <;>
    by_cases h3 : e.wallpaperChangeHandler.isSome <;>
    by_cases h4 : e.styleChangeHandler.isSome <;>
    simp_all [Option.not_isSome_iff_eq_none]

/-- C9 witness: the amended postcondition at the populated object. -/
theorem disable_postcondition_witness : disablePost c9ext :=
  disable_postcondition c9ext

/-- C10: every write of a `light-shell-theme` or `dark-shell-theme` key
stores exactly `shellSnapshotVal` — the live shell theme when set, the
sentinel `"Default"` when the live read is empty — and that value is
never the empty string. -/
theorem snapshot_shell_nonempty (s : AgentState) : snapshotShellPost s := by
  unfold snapshotShellPost
  refine ⟨saveLight_tk_shell s, saveDark_tk_shell s, ?_, ?_, ?_, ?_, ?_⟩
  · unfold shellSnapshotVal
    split_ifs with h
    · decide
    · exact h
  · intro hne; unfold shellSnapshotVal; rw [if_neg hne]
  · intro he; unfold shellSnapshotVal; rw [if_pos he]
  · intro v hv
    rw [saveLight_snd] at hv
    simp at hv
    exact hv
  · intro v hv
    rw [saveDark_snd] at hv
    simp at hv
    exact hv

/-- C10 witness: the invariant at a state with a live shell theme. -/
theorem snapshot_shell_nonempty_witness : snapshotShellPost c10state :=
  snapshot_shell_nonempty c10state

/-- C5: in both appliers, an absent, empty or `"Default"` stored
shell-theme value produces a reset command and never any write command;
any other stored value produces a write command carrying exactly that
value; and no write command ever carries the literal payload
`"Default"`. -/
theorem shell_theme_sentinel (s : AgentState) : sentinelPost s := by
  unfold sentinelPost
  refine ⟨?_, ?_, ?_, ?_, ?_, ?_⟩
  · intro hcase
    refine ⟨(applyLight_shellReset_mem s).2 hcase, fun v hv => ?_⟩
    obtain ⟨hsome, h1, h2⟩ := (applyLight_shellWrite_mem s v).1 hv
    rcases hcase with hc | hc | hc <;> rw [hc] at hsome
    · exact Option.noConfusion hsome
    · injection hsome with hs; exact h1 hs.symm
    · injection hsome with hs; exact h2 hs.symm
  · intro v h1 h2 hsome
    refine ⟨(applyLight_shellWrite_mem s v).2 ⟨hsome, h1, h2⟩, fun hr => ?_⟩
    rcases (applyLight_shellReset_mem s).1 hr with hc | hc | hc <;> rw [hsome] at hc
    · exact Option.noConfusion hc
    · injection hc with hs; exact h1 hs
    · injection hc with hs; exact h2 hs
  · intro v hv
    obtain ⟨hsome, h1, h2⟩ := (applyLight_shellWrite_mem s v).1 hv
    exact ⟨h2, hsome⟩
  · intro hcase
    refine ⟨(applyDark_shellReset_mem s).2 hcase, fun v hv => ?_⟩
    obtain ⟨hsome, h1, h2⟩ := (applyDark_shellWrite_mem s v).1 hv
    rcases hcase with hc | hc | hc <;> rw [hc] at hsome
    · exact Option.noConfusion hsome
    · injection hsome with hs; exact h1 hs.symm
    · injection hsome with hs; exact h2 hs.symm
  · intro v h1 h2 hsome
    refine ⟨(applyDark_shellWrite_mem s v).2 ⟨hsome, h1, h2⟩, fun hr => ?_⟩
    rcases (applyDark_shellReset_mem s).1 hr with hc | hc | hc <;> rw [hsome] at hc
    · exact Option.noConfusion hc
    · injection hc with hs; exact h1 hs
    · injection hc with hs; exact h2 hs
  · intro v hv
    obtain ⟨hsome, h1, h2⟩ := (applyDark_shellWrite_mem s v).1 hv
    exact ⟨h2, hsome⟩

/-- C5 witness: a state with a real light shell theme and the sentinel as
dark shell theme. -/
theorem shell_theme_sentinel_witness :
    c5state.tkStore "light-shell-theme" = some "Orchis" ∧
    c5state.tkStore "dark-shell-theme" = some "Default" ∧
    sentinelPost c5state :=
  ⟨rfl, rfl, shell_theme_sentinel c5state⟩

/-- C1: on a wallpaper-change notification for either wallpaper key whose
memorized slot holds `w`: a paired new value is recorded in the slot
matching the changed key with no live write; an unpaired new value on the
light key while the scheme is dark (or the dark key while light) causes
the live changed key to be rewritten to `w` with Mode Memory untouched;
otherwise the new value is accepted into the matching slot. -/
theorem wallpaper_reconciliation (key w : String) (s : AgentState)
    (hkey : key = "picture-uri" ∨ key = "picture-uri-dark")
    (hmem : memSlot key s = some w) : wallpaperPost key w s := by
  unfold wallpaperPost
  rcases hkey with rfl | rfl
  · simp [memSlot] at hmem
    refine ⟨?_, ?_, ?_⟩
    · intro hp
      simp [handleWallpaperChange, hp, memWrite]
    · intro hp hcase
      rcases hcase with ⟨-, hdk⟩ | ⟨habs, -⟩
      · simp [handleWallpaperChange, hp, hdk, hmem]
      · exact absurd habs (by decide)
    · intro hp h1 h2
      have hdk := h1 rfl
      simp [handleWallpaperChange, hp, hdk, memWrite]
  · simp [memSlot] at hmem
    refine ⟨?_, ?_, ?_⟩
    · intro hp
      simp [handleWallpaperChange, hp, memWrite]
    · intro hp hcase
      rcases hcase with ⟨habs, -⟩ | ⟨-, hdk⟩
      · exact absurd habs (by decide)
      · simp [handleWallpaperChange, hp, hdk, hmem]
    · intro hp h1 h2
      have hdk := h2 rfl
      simp [handleWallpaperChange, hp, hdk, memWrite]

/-- C1 witness: a paired value arriving on the light key, with both Mode
Memory slots populated. -/
theorem wallpaper_reconciliation_witness :
    ("picture-uri" = "picture-uri" ∨ "picture-uri" = "picture-uri-dark") ∧
    memSlot "picture-uri" c1state = some "memL" ∧
    wallpaperPost "picture-uri" "memL" c1state :=
  ⟨Or.inl rfl, rfl, wallpaper_reconciliation "picture-uri" "memL" c1state (Or.inl rfl) rfl⟩

/-- C2: a color-scheme change entering dark writes the five live theme
attributes into the light snapshot keys and applies the dark snapshot
(per-attribute guarded writes, shell via the sentinel rule), with every
snapshot write preceding every apply effect in the trace; entering light
is symmetric with the dark snapshot keys. -/
theorem style_change_reconciliation (s : AgentState) : stylePost s := by
  unfold stylePost
  constructor
  · intro hd
    simp only [handleStyleChange_dark s hd]
    refine ⟨?_, ?_, ?_, ?_, ?_, ?_, ?_, ?_, ?_, ?_, ?_⟩
    · rw [applyDarkTheme_fst_tk, saveLight_tk_gtk]
    · rw [applyDarkTheme_fst_tk, saveLight_tk_icon]
    · rw [applyDarkTheme_fst_tk, saveLight_tk_cursor]
    · rw [applyDarkTheme_fst_tk, saveLight_tk_accent]
    · rw [applyDarkTheme_fst_tk, saveLight_tk_shell]
    · rw [applyDarkTheme_fst_iface_gtk, saveLight_fst_iface, saveLight_tk_dark_gtk]
    · rw [applyDarkTheme_fst_iface_icon, saveLight_fst_iface, saveLight_tk_dark_icon]
    · rw [applyDarkTheme_fst_iface_cursor, saveLight_fst_iface, saveLight_tk_dark_cursor]
    · rw [applyDarkTheme_fst_iface_accent, saveLight_fst_iface, saveLight_tk_dark_accent]
    · rw [applyDarkTheme_fst_user, saveLight_tk_dark_shell]
    · refine ⟨(applyDarkTheme (saveCurrentThemeToLightKeys s).1).2, ?_, ?_⟩
      · rw [saveLight_snd]
      · intro e he
        rw [applyDarkTheme_snd] at he
        simp only [List.mem_append] at he
        rcases he with ((((h | h) | h) | h) | h)
        · exact optTrace_not_tk e _ _ h
        · exact shellTrace_not_tk e _ h
        · exact optTrace_not_tk e _ _ h
        · exact optTrace_not_tk e _ _ h
        · exact optTrace_not_tk e _ _ h
  · intro hl
    simp only [handleStyleChange_light s hl]
    refine ⟨?_, ?_, ?_, ?_, ?_, ?_, ?_, ?_, ?_, ?_, ?_⟩
    · rw [applyLightTheme_fst_tk, saveDark_tk_gtk]
    · rw [applyLightTheme_fst_tk, saveDark_tk_icon]
    · rw [applyLightTheme_fst_tk, saveDark_tk_cursor]
    · rw [applyLightTheme_fst_tk, saveDark_tk_accent]
    · rw [applyLightTheme_fst_tk, saveDark_tk_shell]
    · rw [applyLightTheme_fst_iface_gtk, saveDark_fst_iface, saveDark_tk_light_gtk]
    · rw [applyLightTheme_fst_iface_icon, saveDark_fst_iface, saveDark_tk_light_icon]
    · rw [applyLightTheme_fst_iface_cursor, saveDark_fst_iface, saveDark_tk_light_cursor]
    · rw [applyLightTheme_fst_iface_accent, saveDark_fst_iface, saveDark_tk_light_accent]
    · rw [applyLightTheme_fst_user, saveDark_tk_light_shell]
    · refine ⟨(applyLightTheme (saveCurrentThemeToDarkKeys s).1).2, ?_, ?_⟩
      · rw [saveDark_snd]
      · intro e he
        rw [applyLightTheme_snd] at he
        simp only [List.mem_append] at he
        rcases he with ((((h | h) | h) | h) | h)
        · exact optTrace_not_tk e _ _ h
        · exact shellTrace_not_tk e _ h
        · exact optTrace_not_tk e _ _ h
        · exact optTrace_not_tk e _ _ h
        · exact optTrace_not_tk e _ _ h

/-- C2 witness: a state that just switched to the dark scheme, with a
dark gtk snapshot present. -/
theorem style_change_reconciliation_witness :
    isDarkScheme (c2state.interfaceSettings "color-scheme") = true ∧ stylePost c2state :=
  ⟨by decide, style_change_reconciliation c2state⟩

/-- C8 counterexample: with a stored light icon theme, `_applyLightTheme`
first awaits the shell-theme reset command and only then performs the
live `icon-theme` write — a live-setting mutation after the handler's
suspension point, contradicting the claimed eager-mutation discipline. -/
theorem apply_eager_counterexample :
    eagerBeforeSuspend (applyLightTheme c8state).2 = false ∧
    (applyLightTheme c8state).2 =
      [Effect.shellReset, Effect.setInterface "icon-theme" "Papirus"] := by
  decide

/-- C8 (amended): in both appliers the trace is a non-suspending prefix
whose only live write is the `gtk-theme` write, then exactly one awaited
shell-theme command, then a non-suspending tail whose live writes are the
`icon-theme`, `cursor-theme` and `accent-color` writes — i.e. only the
gtk write precedes the suspension; the remaining interface writes follow
the awaited command. -/
theorem apply_eager_amended (s : AgentState) :
    applySplitPost (applyLightTheme s).2 ∧ applySplitPost (applyDarkTheme s).2 := by
  constructor
  · rw [applyLightTheme_snd]
    obtain ⟨sh, hsh, hsus⟩ := shellTrace_single (s.tkStore "light-shell-theme")
    refine ⟨optTrace "gtk-theme" (s.tkStore "light-gtk-theme"), sh,
      optTrace "icon-theme" (s.tkStore "light-icon-theme") ++
        optTrace "cursor-theme" (s.tkStore "light-cursor-theme") ++
        optTrace "accent-color" (s.tkStore "light-accent-color"),
      ?_, hsus, ?_, ?_, ?_, ?_⟩
    · rw [hsh]; simp [List.append_assoc]
    · intro e he; exact optTrace_not_suspend e _ _ he
    · intro e he
      simp only [List.mem_append] at he
      rcases he with (h | h) | h <;> exact optTrace_not_suspend e _ _ h
    · intro e he hw
      obtain ⟨v, rfl⟩ := mem_optTrace e _ _ he
      exact ⟨v, rfl⟩
    · intro e he hw
      simp only [List.mem_append] at he
      rcases he with (h | h) | h
      · obtain ⟨v, rfl⟩ := mem_optTrace e _ _ h; exact Or.inl ⟨v, rfl⟩
      · obtain ⟨v, rfl⟩ := mem_optTrace e _ _ h; exact Or.inr (Or.inl ⟨v, rfl⟩)
      · obtain ⟨v, rfl⟩ := mem_optTrace e _ _ h; exact Or.inr (Or.inr ⟨v, rfl⟩)
  · rw [applyDarkTheme_snd]
    obtain ⟨sh, hsh, hsus⟩ := shellTrace_single (s.tkStore "dark-shell-theme")
    refine ⟨optTrace "gtk-theme" (s.tkStore "dark-gtk-theme"), sh,
      optTrace "icon-theme" (s.tkStore "dark-icon-theme") ++
        optTrace "cursor-theme" (s.tkStore "dark-cursor-theme") ++
        optTrace "accent-color" (s.tkStore "dark-accent-color"),
      ?_, hsus, ?_, ?_, ?_, ?_⟩
    · rw [hsh]; simp [List.append_assoc]
    · intro e he; exact optTrace_not_suspend e _ _ he
    · intro e he
      simp only [List.mem_append] at he
      rcases he with (h | h) | h <;> exact optTrace_not_suspend e _ _ h
    · intro e he hw
      obtain ⟨v, rfl⟩ := mem_optTrace e _ _ he
      exact ⟨v, rfl⟩
    · intro e he hw
      simp only [List.mem_append] at he
      rcases he with (h | h) | h
      · obtain ⟨v, rfl⟩ := mem_optTrace e _ _ h; exact Or.inl ⟨v, rfl⟩
      · obtain ⟨v, rfl⟩ := mem_optTrace e _ _ h; exact Or.inr (Or.inl ⟨v, rfl⟩)
      · obtain ⟨v, rfl⟩ := mem_optTrace e _ _ h; exact Or.inr (Or.inr ⟨v, rfl⟩)

/-- C8 witness: the amended trace split at the counterexample state. -/
theorem apply_eager_amended_witness :
    applySplitPost (applyLightTheme c8state).2 ∧ applySplitPost (applyDarkTheme c8state).2 :=
  apply_eager_amended c8state

/-- C3 counterexample: starting in light mode with an *empty* live gtk
theme and a non-empty dark gtk snapshot, switching to dark and back
leaves the dark gtk theme live — the guarded apply skips falsy stored
values, so the round trip does not restore the starting attributes. -/
theorem roundtrip_counterexample :
    isDarkScheme (c3state.interfaceSettings "color-scheme") = false ∧
    c3state.interfaceSettings "gtk-theme" = "" ∧
    (styleEvent "default" (styleEvent "prefer-dark" c3state)).interfaceSettings "gtk-theme"
      = "DarkG" ∧
    (styleEvent "default" (styleEvent "prefer-dark" c3state)).interfaceSettings "gtk-theme"
      ≠ c3state.interfaceSettings "gtk-theme" := by
  decide

/-- C3 (amended): the dark-and-back round trip restores the five starting
attributes provided the starting gtk, icon, cursor and accent attributes
are non-empty and the starting shell theme is not the literal sentinel
`"Default"`. -/
theorem roundtrip_amended (s : AgentState)
    (h0 : isDarkScheme (s.interfaceSettings "color-scheme") = false)
    (hg : s.interfaceSettings "gtk-theme" ≠ "")
    (hi : s.interfaceSettings "icon-theme" ≠ "")
    (hc : s.interfaceSettings "cursor-theme" ≠ "")
    (ha : s.interfaceSettings "accent-color" ≠ "")
    (hsh : getCurrentShellTheme s ≠ "Default") : roundTripPost s := by
  unfold roundTripPost
  have hd1 : isDarkScheme
      ((setInterfaceKey s "color-scheme" "prefer-dark").interfaceSettings "color-scheme")
        = true := by
    have hcs : (setInterfaceKey s "color-scheme" "prefer-dark").interfaceSettings
        "color-scheme" = "prefer-dark" := rfl
    rw [hcs]; decide
  have hA : styleEvent "prefer-dark" s =
      (applyDarkTheme
        (saveCurrentThemeToLightKeys (setInterfaceKey s "color-scheme" "prefer-dark")).1).1 := by
    unfold styleEvent
    rw [handleStyleChange_dark _ hd1]
  have hAtk_g : (styleEvent "prefer-dark" s).tkStore "light-gtk-theme" =
      some (s.interfaceSettings "gtk-theme") := by
    rw [hA, applyDarkTheme_fst_tk, saveLight_tk_gtk]; rfl
  have hAtk_i : (styleEvent "prefer-dark" s).tkStore "light-icon-theme" =
      some (s.interfaceSettings "icon-theme") := by
    rw [hA, applyDarkTheme_fst_tk, saveLight_tk_icon]; rfl
  have hAtk_c : (styleEvent "prefer-dark" s).tkStore "light-cursor-theme" =
      some (s.interfaceSettings "cursor-theme") := by
    rw [hA, applyDarkTheme_fst_tk, saveLight_tk_cursor]; rfl
  have hAtk_a : (styleEvent "prefer-dark" s).tkStore "light-accent-color" =
      some (s.interfaceSettings "accent-color") := by
    rw [hA, applyDarkTheme_fst_tk, saveLight_tk_accent]; rfl
  have hAtk_s : (styleEvent "prefer-dark" s).tkStore "light-shell-theme" =
      some (shellSnapshotVal s) := by
    rw [hA, applyDarkTheme_fst_tk, saveLight_tk_shell]; rfl
  have hd2 : isDarkScheme
      ((setInterfaceKey (styleEvent "prefer-dark" s) "color-scheme" "default").interfaceSettings
        "color-scheme") = false := by
    have hcs : (setInterfaceKey (styleEvent "prefer-dark" s) "color-scheme"
        "default").interfaceSettings "color-scheme" = "default" := rfl
    rw [hcs]; decide
  have hB : styleEvent "default" (styleEvent "prefer-dark" s) =
      (applyLightTheme
        (saveCurrentThemeToDarkKeys
          (setInterfaceKey (styleEvent "prefer-dark" s) "color-scheme" "default")).1).1 := by
    have houter : styleEvent "default" (styleEvent "prefer-dark" s) =
        (handleStyleChange
          (setInterfaceKey (styleEvent "prefer-dark" s) "color-scheme" "default")).1 := rfl
    rw [houter, handleStyleChange_light _ hd2]
  have hBtk_g : (setInterfaceKey (styleEvent "prefer-dark" s) "color-scheme"
      "default").tkStore "light-gtk-theme" = some (s.interfaceSettings "gtk-theme") := hAtk_g
  have hBtk_i : (setInterfaceKey (styleEvent "prefer-dark" s) "color-scheme"
      "default").tkStore "light-icon-theme" = some (s.interfaceSettings "icon-theme") := hAtk_i
  have hBtk_c : (setInterfaceKey (styleEvent "prefer-dark" s) "color-scheme"
      "default").tkStore "light-cursor-theme" = some (s.interfaceSettings "cursor-theme") := hAtk_c
  have hBtk_a : (setInterfaceKey (styleEvent "prefer-dark" s) "color-scheme"
      "default").tkStore "light-accent-color" = some (s.interfaceSettings "accent-color") := hAtk_a
  have hBtk_s : (setInterfaceKey (styleEvent "prefer-dark" s) "color-scheme"
      "default").tkStore "light-shell-theme" = some (shellSnapshotVal s) := hAtk_s
  refine ⟨?_, ?_, ?_, ?_, ?_⟩
  · rw [hB, applyLightTheme_fst_iface_gtk, saveDark_fst_iface, saveDark_tk_light_gtk, hBtk_g]
    simp [appliedVal, hg]
  · rw [hB, applyLightTheme_fst_iface_icon, saveDark_fst_iface, saveDark_tk_light_icon, hBtk_i]
    simp [appliedVal, hi]
  · rw [hB, applyLightTheme_fst_iface_cursor, saveDark_fst_iface, saveDark_tk_light_cursor,
      hBtk_c]
    simp [appliedVal, hc]
  · rw [hB, applyLightTheme_fst_iface_accent, saveDark_fst_iface, saveDark_tk_light_accent,
      hBtk_a]
    simp [appliedVal, ha]
  · rw [hB]
    have huser : (applyLightTheme
        (saveCurrentThemeToDarkKeys
          (setInterfaceKey (styleEvent "prefer-dark" s) "color-scheme" "default")).1).1.userThemeName
        = shellApplied (some (shellSnapshotVal s)) := by
      rw [applyLightTheme_fst_user, saveDark_tk_light_shell, hBtk_s]
    unfold getCurrentShellTheme at hsh ⊢
    rw [huser]
    by_cases he : s.userThemeName.getD "" = ""
    · have hval : shellSnapshotVal s = "Default" := by
        unfold shellSnapshotVal getCurrentShellTheme
        rw [if_pos he]
      rw [hval, he]
      simp [shellApplied]
    · have hval : shellSnapshotVal s = s.userThemeName.getD "" := by
        unfold shellSnapshotVal getCurrentShellTheme
        rw [if_neg he]
      rw [hval]
      simp [shellApplied, he, hsh]

/-- C3 witness: the amended round trip at a concrete light-mode state with
non-empty attributes, a real shell theme, and a dark gtk snapshot. -/
theorem roundtrip_amended_witness :
    (isDarkScheme (c3good.interfaceSettings "color-scheme") = false ∧
     c3good.interfaceSettings "gtk-theme" ≠ "" ∧
     c3good.interfaceSettings "icon-theme" ≠ "" ∧
     c3good.interfaceSettings "cursor-theme" ≠ "" ∧
     c3good.interfaceSettings "accent-color" ≠ "" ∧
     getCurrentShellTheme c3good ≠ "Default") ∧
    roundTripPost c3good :=
  ⟨⟨by decide, by decide, by decide, by decide, by decide, by decide⟩,
   roundtrip_amended c3good (by decide) (by decide) (by decide) (by decide) (by decide)
     (by decide)⟩

end ThemeKeeper
